import Mathlib

/-!
Verification development for the pet match engine (`src/match-engine.js`).

The JavaScript source is shallowly embedded below.  JavaScript numbers are
modelled as real numbers (`ℝ`); the value `Infinity` returned by the distance
function is modelled with `WithTop ℝ` (`⊤`).  Nullable values are modelled with
`Option`.  Database tables are modelled as lists, and the asynchronous pass
`processMatches` is modelled as a pure state-transformation parameterised by an
environment of I/O outcomes (SMS send failures, report-generator failures,
insert failures), mirroring the code's try/catch boundaries.
-/

namespace MatchEngine

open Classical

/-- Configuration constant `CONFIG.MATCH_THRESHOLD` from the source. -/
def MATCH_THRESHOLD : ℝ := 0.85

/-- Configuration constant `CONFIG.BATCH_SIZE` from the source. -/
def BATCH_SIZE : ℕ := 50

/-- Configuration constant `CONFIG.MAX_DISTANCE_MILES` from the source. -/
def MAX_DISTANCE_MILES : ℝ := 50

/-- Sum of pairwise products accumulated by the loop in `cosineSimilarity`
(`dotProduct += vec1[i] * vec2[i]`); for equal-length vectors the loop visits
exactly the zipped pairs. -/
def dotList (v1 v2 : List ℝ) : ℝ := (List.zipWith (fun x y => x * y) v1 v2).sum

/-- Sum of squares accumulated by the loop in `cosineSimilarity`
(`norm1 += vec1[i] * vec1[i]`). -/
def sumSq (v : List ℝ) : ℝ := (v.map (fun x => x * x)).sum

/-- Embedding of `cosineSimilarity(vec1, vec2)` from `src/match-engine.js`
(lines 27–48).  A null/undefined argument is `none`; the guard
`!vec1 || !vec2 || vec1.length !== vec2.length` returns `0`; after the loop,
`norm1 === 0 || norm2 === 0` returns `0`; otherwise the quotient is returned. -/
noncomputable def cosineSimilarity (vec1? vec2? : Option (List ℝ)) : ℝ :=
  match vec1?, vec2? with
  | some vec1, some vec2 =>
    if vec1.length ≠ vec2.length then 0
    else
      let norm1 := Real.sqrt (sumSq vec1)
      let norm2 := Real.sqrt (sumSq vec2)
      if norm1 = 0 ∨ norm2 = 0 then 0
      else dotList vec1 vec2 / (norm1 * norm2)
  | _, _ => 0

/-- Embedding of JavaScript `Math.atan2(y, x)` (standard definition by cases). -/
noncomputable def atan2 (y x : ℝ) : ℝ :=
  if 0 < x then Real.arctan (y / x)
  else if x < 0 ∧ 0 ≤ y then Real.arctan (y / x) + Real.pi
  else if x < 0 ∧ y < 0 then Real.arctan (y / x) - Real.pi
  else if x = 0 ∧ 0 < y then Real.pi / 2
  else if x = 0 ∧ y < 0 then -(Real.pi / 2)
  else 0

/-- The intermediate value `a` of the haversine computation in
`calculateDistance` (lines 59–62 of the source). -/
noncomputable def havA (lat1 lon1 lat2 lon2 : ℝ) : ℝ :=
  Real.sin ((lat2 - lat1) * Real.pi / 180 / 2) *
      Real.sin ((lat2 - lat1) * Real.pi / 180 / 2) +
    Real.cos (lat1 * Real.pi / 180) * Real.cos (lat2 * Real.pi / 180) *
      Real.sin ((lon2 - lon1) * Real.pi / 180 / 2) *
      Real.sin ((lon2 - lon1) * Real.pi / 180 / 2)

/-- The finite (non-guard) branch of `calculateDistance`: `R * c` with
`R = 3959` and `c = 2 * atan2(sqrt(a), sqrt(1 - a))`. -/
noncomputable def haversineMiles (lat1 lon1 lat2 lon2 : ℝ) : ℝ :=
  3959 * (2 * atan2 (Real.sqrt (havA lat1 lon1 lat2 lon2))
    (Real.sqrt (1 - havA lat1 lon1 lat2 lon2)))

/-- Embedding of `calculateDistance(lat1, lon1, lat2, lon2)` (lines 53–65).
The JavaScript guard `if (!lat1 || !lon1 || !lat2 || !lon2) return Infinity`
treats a coordinate equal to `0` (and null/undefined, modelled here as `0`) as
missing; `Infinity` is modelled as `⊤ : WithTop ℝ`. -/
noncomputable def calculateDistance (lat1 lon1 lat2 lon2 : ℝ) : WithTop ℝ :=
  if lat1 = 0 ∨ lon1 = 0 ∨ lat2 = 0 ∨ lon2 = 0 then ⊤
  else ((haversineMiles lat1 lon1 lat2 lon2 : ℝ) : WithTop ℝ)

lemma sumSq_nonneg (v : List ℝ) : 0 ≤ sumSq v := by
  refine List.sum_nonneg ?_
  intro x hx
  obtain ⟨y, _, rfl⟩ := List.mem_map.1 hx
  exact mul_self_nonneg y

lemma dotList_eq_sum_range :
    ∀ v1 v2 : List ℝ, v1.length = v2.length →
      dotList v1 v2 = ∑ i in Finset.range v1.length, v1.getD i 0 * v2.getD i 0 := by
  intro v1
  induction v1 with
  | nil => intro v2 _; simp [dotList]
  | cons a as ih =>
    intro v2 h
    cases v2 with
    | nil => simp at h
    | cons b bs =>
      have h' : as.length = bs.length := by simpa using h
      have hs := Finset.sum_range_succ'
        (fun i => (a :: as).getD i 0 * (b :: bs).getD i 0) as.length
      simp only [List.getD_cons_succ, List.getD_cons_zero] at hs
      simp only [dotList, List.zipWith_cons_cons, List.sum_cons, List.length_cons, hs]
      rw [← dotList, ih bs h']
      ring

lemma dotList_self (v : List ℝ) : dotList v v = sumSq v := by
  induction v with
  | nil => simp [dotList, sumSq]
  | cons a as ih => simp [dotList, sumSq] at ih ⊢

lemma dotList_sq_le (v1 v2 : List ℝ) (h : v1.length = v2.length) :
    dotList v1 v2 ^ 2 ≤ sumSq v1 * sumSq v2 := by
  have cs := Finset.sum_mul_sq_le_sq_mul_sq (Finset.range v1.length)
    (fun i => v1.getD i 0) (fun i => v2.getD i 0)
  have e1 : sumSq v1 = ∑ i in Finset.range v1.length, v1.getD i 0 ^ 2 := by
    rw [← dotList_self, dotList_eq_sum_range v1 v1 rfl]
    exact Finset.sum_congr rfl fun i _ => by ring
  have e2 : sumSq v2 = ∑ i in Finset.range v1.length, v2.getD i 0 ^ 2 := by
    rw [← dotList_self, dotList_eq_sum_range v2 v2 rfl, h]
    exact Finset.sum_congr rfl fun i _ => by ring
  rw [dotList_eq_sum_range v1 v2 h, e1, e2]
  exact cs

/-- C8: for every pair of inputs — equal-length vectors (Cauchy–Schwarz bound)
or any degenerate input (where the function returns 0) — the absolute value of
`cosineSimilarity` never exceeds 1. -/
theorem cosineSimilarity_abs_le_one (vec1? vec2? : Option (List ℝ)) :
    |cosineSimilarity vec1? vec2?| ≤ 1 := by
  rcases vec1? with _ | v1
  · simp [cosineSimilarity]
  rcases vec2? with _ | v2
  · simp [cosineSimilarity]
  simp only [cosineSimilarity]
  split_ifs with h1 h2
  · simp
  · simp
  · have hlen : v1.length = v2.length := not_ne_iff.1 h1
    push_neg at h2
    obtain ⟨hn1, hn2⟩ := h2
    have hpos1 : 0 < Real.sqrt (sumSq v1) :=
      lt_of_le_of_ne (Real.sqrt_nonneg _) (Ne.symm hn1)
    have hpos2 : 0 < Real.sqrt (sumSq v2) :=
      lt_of_le_of_ne (Real.sqrt_nonneg _) (Ne.symm hn2)
    have hprod : 0 < Real.sqrt (sumSq v1) * Real.sqrt (sumSq v2) := mul_pos hpos1 hpos2
    rw [abs_div, abs_of_pos hprod, div_le_one hprod]
    have habs : |dotList v1 v2| = Real.sqrt (dotList v1 v2 ^ 2) :=
      (Real.sqrt_sq_eq_abs _).symm
    rw [habs, ← Real.sqrt_mul (sumSq_nonneg v1)]
    exact Real.sqrt_le_sqrt (dotList_sq_le v1 v2 hlen)

/-- C6: `cosineSimilarity` returns exactly 0 on every degenerate input: a
null/absent vector, mismatched lengths, an empty vector, or a vector of
Euclidean norm 0 — and (being a total function) raises no error. -/
theorem cosineSimilarity_degenerate :
    (∀ v? : Option (List ℝ), cosineSimilarity none v? = 0) ∧
    (∀ v? : Option (List ℝ), cosineSimilarity v? none = 0) ∧
    (∀ v1 v2 : List ℝ, v1.length ≠ v2.length →
      cosineSimilarity (some v1) (some v2) = 0) ∧
    (∀ v? : Option (List ℝ), cosineSimilarity (some []) v? = 0) ∧
    (∀ v? : Option (List ℝ), cosineSimilarity v? (some []) = 0) ∧
    (∀ v1 v2 : List ℝ, Real.sqrt (sumSq v1) = 0 →
      cosineSimilarity (some v1) (some v2) = 0) ∧
    (∀ v1 v2 : List ℝ, Real.sqrt (sumSq v2) = 0 →
      cosineSimilarity (some v1) (some v2) = 0) := by
  have hnil : Real.sqrt (sumSq ([] : List ℝ)) = 0 := by simp [sumSq]
  refine ⟨?_, ?_, ?_, ?_, ?_, ?_, ?_⟩
  · intro v?; cases v? <;> rfl
  · intro v?; cases v? <;> rfl
  · intro v1 v2 h; simp [cosineSimilarity, h]
  · intro v?
    cases v? with
    | none => rfl
    | some v2 => simp [cosineSimilarity, hnil]
  · intro v?
    cases v? with
    | none => rfl
    | some v1 => simp [cosineSimilarity, hnil]
  · intro v1 v2 h; simp [cosineSimilarity, h]
  · intro v1 v2 h; simp [cosineSimilarity, h]

/-- Witness for C6 at concrete inputs: a length mismatch and a zero-norm
vector both yield exactly 0. -/
theorem cosineSimilarity_degenerate_witness :
    (([(1 : ℝ), 2].length ≠ [(3 : ℝ)].length) ∧
      cosineSimilarity (some [(1 : ℝ), 2]) (some [(3 : ℝ)]) = 0) ∧
    ((Real.sqrt (sumSq ([(0 : ℝ)])) = 0) ∧
      cosineSimilarity (some [(0 : ℝ)]) (some [(5 : ℝ)]) = 0) := by
  have hs : Real.sqrt (sumSq ([(0 : ℝ)])) = 0 := by simp [sumSq]
  exact ⟨⟨by decide, cosineSimilarity_degenerate.2.2.1 _ _ (by decide)⟩,
    ⟨hs, cosineSimilarity_degenerate.2.2.2.2.2.1 _ _ hs⟩⟩

lemma sin_half_neg (u v : ℝ) :
    Real.sin ((u - v) * Real.pi / 180 / 2) =
      -Real.sin ((v - u) * Real.pi / 180 / 2) := by
  rw [show (u - v) * Real.pi / 180 / 2 = -((v - u) * Real.pi / 180 / 2) by ring,
    Real.sin_neg]

lemma havA_symm (lat1 lon1 lat2 lon2 : ℝ) :
    havA lat2 lon2 lat1 lon1 = havA lat1 lon1 lat2 lon2 := by
  unfold havA
  rw [sin_half_neg lat1 lat2, sin_half_neg lon1 lon2]
  ring

lemma haversineMiles_symm (lat1 lon1 lat2 lon2 : ℝ) :
    haversineMiles lat1 lon1 lat2 lon2 = haversineMiles lat2 lon2 lat1 lon1 := by
  unfold haversineMiles
  rw [havA_symm]

/-- C10: `calculateDistance` is symmetric in its two endpoints, both through
the missing-coordinate guard (which is a symmetric disjunction) and through
the haversine formula itself. -/
theorem calculateDistance_symm (lat1 lon1 lat2 lon2 : ℝ) :
    calculateDistance lat1 lon1 lat2 lon2 = calculateDistance lat2 lon2 lat1 lon1 := by
  unfold calculateDistance
  by_cases hg : lat1 = 0 ∨ lon1 = 0 ∨ lat2 = 0 ∨ lon2 = 0
  · rw [if_pos hg, if_pos (by tauto)]
  · rw [if_neg hg, if_neg (show ¬(lat2 = 0 ∨ lon2 = 0 ∨ lat1 = 0 ∨ lon1 = 0) by tauto),
      haversineMiles_symm]

lemma atan2_zero_one : atan2 0 1 = 0 := by
  unfold atan2
  rw [if_pos one_pos]
  norm_num [Real.arctan_zero]

lemma haversineMiles_self (lat lon : ℝ) : haversineMiles lat lon lat lon = 0 := by
  have ha : havA lat lon lat lon = 0 := by
    unfold havA
    simp
  unfold haversineMiles
  rw [ha]
  norm_num [atan2_zero_one]

/-- C5 counterexample: on the coordinate pair `(0, 1)` — latitude exactly 0,
a valid real-world coordinate — the falsy-coordinate guard of
`calculateDistance` fires and the self-distance is `Infinity`, not 0. -/
theorem calculateDistance_self_zero_counterexample :
    calculateDistance 0 1 0 1 = ⊤ ∧ (⊤ : WithTop ℝ) ≠ ((0 : ℝ) : WithTop ℝ) := by
  constructor
  · unfold calculateDistance
    rw [if_pos (Or.inl rfl)]
  · simp

/-- C5 amended: for every coordinate pair whose latitude and longitude are
both nonzero (so the falsy-missing-value guard does not fire),
`calculateDistance(lat, lon, lat, lon) = 0`. -/
theorem calculateDistance_self (lat lon : ℝ) (hlat : lat ≠ 0) (hlon : lon ≠ 0) :
    calculateDistance lat lon lat lon = ((0 : ℝ) : WithTop ℝ) := by
  unfold calculateDistance
  rw [if_neg (by tauto), haversineMiles_self]

/-- Witness for the amended C5 at the concrete coordinate `(1, 1)`. -/
theorem calculateDistance_self_witness :
    ((1 : ℝ) ≠ 0) ∧ calculateDistance 1 1 1 1 = ((0 : ℝ) : WithTop ℝ) :=
  ⟨one_ne_zero, calculateDistance_self 1 1 one_ne_zero one_ne_zero⟩

/-- A row of the `lost_pets` table, with the fields `match-engine.js` reads.
Nullable columns are `Option`; coordinates are numbers whose null/undefined is
conflated with `0` exactly as the falsy guard of `calculateDistance` does. -/
structure Pet where
  id : ℕ
  pet_name : String
  status : String
  image_vectors : Option (List (List ℝ))
  location_lat : ℝ
  location_lon : ℝ
  owner_phone : Option String
  contact_phone : Option String

/-- The object pushed onto `matches` in `findMatchesForLostPet`. -/
structure MatchEntry where
  foundPetId : ℕ
  foundPetName : String
  similarity : ℝ
  distance : WithTop ℝ
  foundPet : Pet

/-- The list of embedding vectors of a pet (`[]` when the column is null). -/
def vectorsOf (p : Pet) : List (List ℝ) := p.image_vectors.getD []

/-- The guard `!p.image_vectors || p.image_vectors.length === 0` (negated):
`true` iff the pet has a non-null, non-empty vector list. -/
def hasVectors (p : Pet) : Bool :=
  match p.image_vectors with
  | none => false
  | some l => !l.isEmpty

/-- The nested loop of `findMatchesForLostPet` (lines 94–101): starting from
`maxSimilarity = 0`, take `Math.max` with every pairwise similarity over the
Cartesian product of the two vector lists. -/
noncomputable def maxSimilarity (lostPet foundPet : Pet) : ℝ :=
  (vectorsOf lostPet).foldl
    (fun acc lostVector =>
      (vectorsOf foundPet).foldl
        (fun acc2 foundVector =>
          max acc2 (cosineSimilarity (some lostVector) (some foundVector)))
        acc)
    0

/-- The distance computed at lines 104–109 of the source. -/
noncomputable def petDistance (lostPet foundPet : Pet) : WithTop ℝ :=
  calculateDistance lostPet.location_lat lostPet.location_lon
    foundPet.location_lat foundPet.location_lon

/-- One iteration of the `for (const foundPet of foundPets)` loop: skip a pet
with no vectors (`continue`), otherwise push a match object iff
`maxSimilarity >= CONFIG.MATCH_THRESHOLD && distance <= CONFIG.MAX_DISTANCE_MILES`. -/
noncomputable def candidateEntry (lostPet foundPet : Pet) : Option MatchEntry :=
  if hasVectors foundPet then
    if MATCH_THRESHOLD ≤ maxSimilarity lostPet foundPet ∧
        petDistance lostPet foundPet ≤ ((MAX_DISTANCE_MILES : ℝ) : WithTop ℝ) then
      some { foundPetId := foundPet.id, foundPetName := foundPet.pet_name,
             similarity := maxSimilarity lostPet foundPet,
             distance := petDistance lostPet foundPet, foundPet := foundPet }
    else none
  else none

/-- The pool query of `findMatchesForLostPet`: rows with `status = 'found'`
and a non-null `image_vectors`, limited to 1000. -/
def foundPool (pets : List Pet) : List Pet :=
  (pets.filter (fun p => p.status == "found" && p.image_vectors.isSome)).take 1000

/-- Embedding of `findMatchesForLostPet(lostPet)` (lines 70–127): early return
`[]` when the subject has no vectors; otherwise scan the pool and sort the
pushed matches by descending similarity (`sort((a, b) => b.similarity - a.similarity)`,
modelled as a stable merge sort with that comparison). -/
noncomputable def findMatchesForLostPet (lostPet : Pet) (pets : List Pet) :
    List MatchEntry :=
  if hasVectors lostPet then
    ((foundPool pets).filterMap (candidateEntry lostPet)).mergeSort
      (fun a b => decide (b.similarity ≤ a.similarity))
  else []

/-- All pairwise similarities over the Cartesian product, flattened in the
order the nested loop visits them. -/
noncomputable def allSims (lostPet foundPet : Pet) : List ℝ :=
  (vectorsOf lostPet).flatMap
    (fun lv => (vectorsOf foundPet).map
      (fun fv => cosineSimilarity (some lv) (some fv)))

lemma foldl_max_spec (l : List ℝ) : ∀ a : ℝ,
    a ≤ l.foldl max a ∧ (∀ x ∈ l, x ≤ l.foldl max a) ∧
      (l.foldl max a = a ∨ l.foldl max a ∈ l) := by
  induction l with
  | nil => intro a; simp
  | cons x xs ih =>
    intro a
    obtain ⟨h1, h2, h3⟩ := ih (max a x)
    simp only [List.foldl_cons]
    refine ⟨le_trans (le_max_left a x) h1, ?_, ?_⟩
    · intro y hy
      rcases List.mem_cons.1 hy with rfl | hy'
      · exact le_trans (le_max_right a y) h1
      · exact h2 y hy'
    · rcases h3 with h | h
      · rcases max_choice a x with hm | hm
        · left; rw [h, hm]
        · right; rw [h, hm]; exact List.mem_cons_self x xs
      · right; exact List.mem_cons_of_mem x h

lemma maxSimilarity_eq_foldl (lostPet foundPet : Pet) :
    maxSimilarity lostPet foundPet = (allSims lostPet foundPet).foldl max 0 := by
  unfold maxSimilarity allSims
  suffices h : ∀ (lvs : List (List ℝ)) (a : ℝ),
      lvs.foldl
        (fun acc lv => (vectorsOf foundPet).foldl
          (fun acc2 fv => max acc2 (cosineSimilarity (some lv) (some fv))) acc) a =
      (lvs.flatMap (fun lv => (vectorsOf foundPet).map
        (fun fv => cosineSimilarity (some lv) (some fv)))).foldl max a from
    h _ 0
  intro lvs
  induction lvs with
  | nil => intro a; simp
  | cons lv lvs ih =>
    intro a
    simp only [List.foldl_cons, List.flatMap_cons, List.foldl_append, List.foldl_map]
    exact ih _

lemma allSims_nil_left (lostPet foundPet : Pet) (h : vectorsOf lostPet = []) :
    allSims lostPet foundPet = [] := by
  simp [allSims, h]

lemma allSims_nil_right (lostPet foundPet : Pet) (h : vectorsOf foundPet = []) :
    allSims lostPet foundPet = [] := by
  simp [allSims, h]

lemma hasVectors_false_nil (p : Pet) (h : hasVectors p = false) :
    vectorsOf p = [] := by
  unfold hasVectors at h
  unfold vectorsOf
  cases hv : p.image_vectors with
  | none => rfl
  | some l =>
    rw [hv] at h
    simp at h
    simp [h]

/-- Concrete subject record: one embedding `[1]`. -/
def lostCE : Pet :=
  { id := 1, pet_name := "L", status := "lost", image_vectors := some [[1]],
    location_lat := 1, location_lon := 1, owner_phone := none, contact_phone := none }

/-- Concrete counterpart record: one embedding `[-1]`. -/
def foundCE : Pet :=
  { id := 2, pet_name := "F", status := "found", image_vectors := some [[-1]],
    location_lat := 1, location_lon := 1, owner_phone := none, contact_phone := none }

/-- C4 (amended): the recorded similarity is the fold of `Math.max` seeded
with 0 over the Cartesian product — i.e. an upper bound of every pairwise
cosine similarity, itself nonnegative, and equal either to 0 (the seed) or to
one of the pairwise similarities.  When every pairwise similarity is negative
it is 0, not the (negative) true maximum. -/
theorem maxSimilarity_clamped_max (lostPet foundPet : Pet) :
    0 ≤ maxSimilarity lostPet foundPet ∧
    (∀ lv ∈ vectorsOf lostPet, ∀ fv ∈ vectorsOf foundPet,
      cosineSimilarity (some lv) (some fv) ≤ maxSimilarity lostPet foundPet) ∧
    (maxSimilarity lostPet foundPet = 0 ∨
      ∃ lv ∈ vectorsOf lostPet, ∃ fv ∈ vectorsOf foundPet,
        cosineSimilarity (some lv) (some fv) = maxSimilarity lostPet foundPet) := by
  obtain ⟨h1, h2, h3⟩ := foldl_max_spec (allSims lostPet foundPet) 0
  rw [maxSimilarity_eq_foldl]
  refine ⟨h1, ?_, ?_⟩
  · intro lv hlv fv hfv
    exact h2 _ (List.mem_flatMap.2 ⟨lv, hlv, List.mem_map_of_mem _ hfv⟩)
  · rcases h3 with h | h
    · exact Or.inl h
    · right
      obtain ⟨lv, hlv, hmem⟩ := List.mem_flatMap.1 h
      obtain ⟨fv, hfv, heq⟩ := List.mem_map.1 hmem
      exact ⟨lv, hlv, fv, hfv, heq⟩

/-- Witness for C4 (amended) at a concrete input: the single pairwise
similarity of `[[1]]` against `[[-1]]` is bounded by the recorded value. -/
theorem maxSimilarity_clamped_max_witness :
    [(1 : ℝ)] ∈ vectorsOf lostCE ∧ [(-1 : ℝ)] ∈ vectorsOf foundCE ∧
      cosineSimilarity (some [(1 : ℝ)]) (some [(-1 : ℝ)]) ≤
        maxSimilarity lostCE foundCE := by
  refine ⟨?_, ?_, ?_⟩
  · simp [vectorsOf, lostCE]
  · simp [vectorsOf, foundCE]
  · exact (maxSimilarity_clamped_max lostCE foundCE).2.1 _ (by simp [vectorsOf, lostCE])
      _ (by simp [vectorsOf, foundCE])

/-- Counterexample to C4 as stated: with subject embeddings `[[1]]` and
counterpart embeddings `[[-1]]` the unique pairwise cosine similarity is `-1`,
yet the value computed by the scan is `0` (the `Math.max` fold is seeded with
`0`), so the recorded similarity is not the maximum over the Cartesian
product. -/
theorem maxSimilarity_negative_counterexample :
    cosineSimilarity (some [(1 : ℝ)]) (some [(-1 : ℝ)]) = -1 ∧
    maxSimilarity lostCE foundCE = 0 ∧
    maxSimilarity lostCE foundCE ≠ cosineSimilarity (some [(1 : ℝ)]) (some [(-1 : ℝ)]) := by
  have hss : sumSq [(1 : ℝ)] = 1 := by norm_num [sumSq]
  have hss2 : sumSq [(-1 : ℝ)] = 1 := by norm_num [sumSq]
  have hdl : dotList [(1 : ℝ)] [(-1 : ℝ)] = -1 := by norm_num [dotList]
  have hcos : cosineSimilarity (some [(1 : ℝ)]) (some [(-1 : ℝ)]) = -1 := by
    simp only [cosineSimilarity, hss, hss2, hdl, Real.sqrt_one]
    norm_num
  have hmax : maxSimilarity lostCE foundCE = 0 := by
    rw [maxSimilarity_eq_foldl]
    have : allSims lostCE foundCE = [cosineSimilarity (some [(1 : ℝ)]) (some [(-1 : ℝ)])] := by
      simp [allSims, vectorsOf, lostCE, foundCE]
    rw [this, hcos]
    simp [List.foldl]
  exact ⟨hcos, hmax, by rw [hcos, hmax]; norm_num⟩

lemma maxSim_hasVectors (lostPet fp : Pet)
    (h : MATCH_THRESHOLD ≤ maxSimilarity lostPet fp) :
    hasVectors lostPet = true ∧ hasVectors fp = true := by
  constructor
  · by_contra hh
    rw [Bool.not_eq_true] at hh
    have hz : maxSimilarity lostPet fp = 0 := by
      rw [maxSimilarity_eq_foldl, allSims_nil_left _ _ (hasVectors_false_nil _ hh)]
      rfl
    rw [hz] at h
    norm_num [MATCH_THRESHOLD] at h
  · by_contra hh
    rw [Bool.not_eq_true] at hh
    have hz : maxSimilarity lostPet fp = 0 := by
      rw [maxSimilarity_eq_foldl, allSims_nil_right _ _ (hasVectors_false_nil _ hh)]
      rfl
    rw [hz] at h
    norm_num [MATCH_THRESHOLD] at h

/-- C3: a counterpart from the pool appears in the result of
`findMatchesForLostPet` iff its computed maximum pairwise similarity reaches
`CONFIG.MATCH_THRESHOLD` and its computed distance is at most
`CONFIG.MAX_DISTANCE_MILES`. -/
theorem findMatches_keeps_iff (lostPet fp : Pet) (pets : List Pet)
    (hfp : fp ∈ foundPool pets) :
    (∃ e ∈ findMatchesForLostPet lostPet pets, e.foundPet = fp) ↔
      (MATCH_THRESHOLD ≤ maxSimilarity lostPet fp ∧
        petDistance lostPet fp ≤ ((MAX_DISTANCE_MILES : ℝ) : WithTop ℝ)) := by
  constructor
  · rintro ⟨e, he, hef⟩
    unfold findMatchesForLostPet at he
    by_cases hl : hasVectors lostPet = true
    · rw [if_pos hl, List.mem_mergeSort] at he
      obtain ⟨fp', hfp', hce⟩ := List.mem_filterMap.1 he
      unfold candidateEntry at hce
      by_cases hv : hasVectors fp' = true
      · rw [if_pos hv] at hce
        by_cases hc : MATCH_THRESHOLD ≤ maxSimilarity lostPet fp' ∧
            petDistance lostPet fp' ≤ ((MAX_DISTANCE_MILES : ℝ) : WithTop ℝ)
        · rw [if_pos hc] at hce
          have hEq := Option.some_inj.1 hce
          rw [← hEq] at hef
          have hfp2 : fp' = fp := hef
          rwa [hfp2] at hc
        · rw [if_neg hc] at hce; simp at hce
      · rw [if_neg hv] at hce; simp at hce
    · rw [if_neg hl] at he; exact absurd he (List.not_mem_nil e)
  · rintro ⟨hsim, hdist⟩
    obtain ⟨hlv, hfpv⟩ := maxSim_hasVectors lostPet fp hsim
    unfold findMatchesForLostPet
    rw [if_pos hlv]
    refine ⟨{ foundPetId := fp.id, foundPetName := fp.pet_name,
              similarity := maxSimilarity lostPet fp,
              distance := petDistance lostPet fp, foundPet := fp }, ?_, rfl⟩
    rw [List.mem_mergeSort]
    refine List.mem_filterMap.2 ⟨fp, hfp, ?_⟩
    unfold candidateEntry
    rw [if_pos hfpv, if_pos ⟨hsim, hdist⟩]

/-- Concrete subject for the C3 witness: one embedding `[1]`, location (1,1). -/
def lostW : Pet :=
  { id := 3, pet_name := "LW", status := "lost", image_vectors := some [[1]],
    location_lat := 1, location_lon := 1, owner_phone := none, contact_phone := none }

/-- Concrete counterpart for the C3 witness: identical embedding, same
location, status `found`. -/
def foundW : Pet :=
  { id := 4, pet_name := "FW", status := "found", image_vectors := some [[1]],
    location_lat := 1, location_lon := 1, owner_phone := none, contact_phone := none }

/-- Witness for C3 at a concrete pool: `foundW` is in the pool of
`[foundW]`, and the membership criterion holds for it. -/
theorem findMatches_keeps_iff_witness :
    foundW ∈ foundPool [foundW] ∧
    ((∃ e ∈ findMatchesForLostPet lostW [foundW], e.foundPet = foundW) ↔
      (MATCH_THRESHOLD ≤ maxSimilarity lostW foundW ∧
        petDistance lostW foundW ≤ ((MAX_DISTANCE_MILES : ℝ) : WithTop ℝ))) := by
  have hf : ([foundW].filter (fun p => p.status == "found" && p.image_vectors.isSome)) =
      [foundW] := by simp [foundW]
  have hmem : foundW ∈ foundPool [foundW] := by
    unfold foundPool
    rw [hf, List.take_of_length_le (by simp)]
    exact List.mem_singleton_self foundW
  exact ⟨hmem, findMatches_keeps_iff lostW foundW [foundW] hmem⟩

/-- A row of the `pet_matches` table, as inserted by `saveMatch`. -/
structure MatchRecord where
  id : ℕ
  lost_pet_id : ℕ
  found_pet_id : ℕ
  similarity_score : ℝ
  distance_miles : WithTop ℝ
  status : String

/-- Observable outcome of one `sendMatchNotification` call.  The function
returns early when SMS is unconfigured or the owner has no phone number, and
catches its own send error (lines 156–173), so it never propagates a failure. -/
inductive SmsOutcome
  | skippedUnconfigured
  | skippedNoPhone
  | sent
  | failed
deriving DecidableEq

/-- Environment of I/O outcomes for one pass: whether the SMS service is
configured, which SMS sends the provider fails, which report-generator calls
throw, which succeed, and which `pet_matches` inserts the database rejects. -/
structure Env where
  smsConfigured : Bool
  smsSendFails : ℕ → ℕ → Bool
  reportFails : ℕ → Bool
  reportSuccess : ℕ → Bool
  saveFails : ℕ → ℕ → Bool

/-- Embedding of `sendMatchNotification(lostPet, match)` (lines 132–174):
skip when unconfigured, skip when `lostPet.owner_phone || lostPet.contact_phone`
is missing, otherwise attempt the send; the `axios` error is caught inside the
function, which therefore always returns normally. -/
def sendMatchNotification (env : Env) (lostPet : Pet) (m : MatchEntry) : SmsOutcome :=
  if env.smsConfigured = false then .skippedUnconfigured
  else
    match lostPet.owner_phone.orElse (fun _ => lostPet.contact_phone) with
    | none => .skippedNoPhone
    | some _ =>
      if env.smsSendFails lostPet.id m.foundPetId then .failed else .sent

/-- The report generator (`processMatchReport` from
`match-report-generator.js`) as observed by the match engine: it either throws
(modelled `Except.error`) or returns an object whose `success` flag the engine
reads.  Its internals (PDF generation, shelter lookup, email) are oracles of
the environment. -/
def processMatchReport (env : Env) (matchId : ℕ) : Except Unit Bool :=
  if env.reportFails matchId then .error () else .ok (env.reportSuccess matchId)

/-- True iff the report call returned without throwing. -/
def reportAttemptOk (env : Env) (matchId : ℕ) : Bool :=
  match processMatchReport env matchId with
  | .ok _ => true
  | .error _ => false

/-- Embedding of `matchExists(lostPetId, foundPetId)` (lines 200–210): the
match store is queried for a row with exactly this ordered id pair. -/
def matchExists (store : List MatchRecord) (lostPetId foundPetId : ℕ) : Bool :=
  store.any (fun r => r.lost_pet_id == lostPetId && r.found_pet_id == foundPetId)

/-- Embedding of `saveMatch(lostPetId, foundPetId, similarity, distance)`
(lines 179–195): insert a `pending` row and return its id, or `none` when the
insert fails (the code then returns `null`). -/
def saveMatch (env : Env) (store : List MatchRecord) (nextId : ℕ)
    (lostPetId foundPetId : ℕ) (similarity : ℝ) (distance : WithTop ℝ) :
    Option (List MatchRecord × ℕ) :=
  if env.saveFails lostPetId foundPetId then none
  else some (store ++ [{ id := nextId, lost_pet_id := lostPetId,
                         found_pet_id := foundPetId, similarity_score := similarity,
                         distance_miles := distance, status := "pending" }], nextId)

/-- State threaded through one pass of `processMatches`: the match store, the
next insert id, the two counters, and logs of the notification dispatches and
report attempts (id paired with the observed outcome). -/
structure PassState where
  store : List MatchRecord
  nextId : ℕ
  totalMatches : ℕ
  notificationsSent : ℕ
  smsLog : List (ℕ × SmsOutcome)
  reportLog : List (ℕ × Bool)

/-- The body of the `for (const match of matches)` loop (lines 240–274): skip
when the pair exists, skip (without counting) when the insert fails, and
otherwise count the match, dispatch the SMS notification, count it as sent,
and attempt the PDF report inside its own try/catch. -/
def handleCandidate (env : Env) (lostPet : Pet) (st : PassState) (m : MatchEntry) :
    PassState :=
  if matchExists st.store lostPet.id m.foundPetId then st
  else
    match saveMatch env st.store st.nextId lostPet.id m.foundPetId
        m.similarity m.distance with
    | none => st
    | some (store', matchId) =>
      { store := store', nextId := st.nextId + 1,
        totalMatches := st.totalMatches + 1,
        notificationsSent := st.notificationsSent + 1,
        smsLog := st.smsLog ++ [(matchId, sendMatchNotification env lostPet m)],
        reportLog := st.reportLog ++ [(matchId, reportAttemptOk env matchId)] }

/-- The body of the `for (const lostPet of lostPets)` loop: find candidates
for one subject and run the gate/fan-out over each in ranked order. -/
noncomputable def processPet (env : Env) (pets : List Pet) (st : PassState)
    (lostPet : Pet) : PassState :=
  (findMatchesForLostPet lostPet pets).foldl (handleCandidate env lostPet) st

/-- The batch query of `processMatches`: rows with `status = 'lost'` and a
non-null `image_vectors`, limited to `CONFIG.BATCH_SIZE`. -/
def lostBatch (pets : List Pet) : List Pet :=
  (pets.filter (fun p => p.status == "lost" && p.image_vectors.isSome)).take BATCH_SIZE

/-- Embedding of one full pass `processMatches()` (lines 215–281) over a fixed
record table `pets`, starting from a given match store and id counter. -/
noncomputable def processMatches (env : Env) (pets : List Pet)
    (store : List MatchRecord) (nextId : ℕ) : PassState :=
  (lostBatch pets).foldl (processPet env pets)
    { store := store, nextId := nextId, totalMatches := 0,
      notificationsSent := 0, smsLog := [], reportLog := [] }

lemma foldl_preserve {α β : Type _} (P : α → Prop) (f : α → β → α)
    (hf : ∀ a b, P a → P (f a b)) :
    ∀ (l : List β) (a : α), P a → P (l.foldl f a) := by
  intro l
  induction l with
  | nil => intro a h; exact h
  | cons x xs ih => intro a h; exact ih _ (hf a x h)

lemma handleCandidate_counts (env : Env) (lostPet : Pet) (st : PassState)
    (m : MatchEntry)
    (h : st.notificationsSent = st.totalMatches ∧
      st.smsLog.length = st.totalMatches) :
    (handleCandidate env lostPet st m).notificationsSent =
        (handleCandidate env lostPet st m).totalMatches ∧
      (handleCandidate env lostPet st m).smsLog.length =
        (handleCandidate env lostPet st m).totalMatches := by
  unfold handleCandidate
  by_cases hex : matchExists st.store lostPet.id m.foundPetId = true
  · rw [if_pos hex]; exact h
  · rw [if_neg hex]
    unfold saveMatch
    by_cases hsf : env.saveFails lostPet.id m.foundPetId = true
    · rw [if_pos hsf]; exact h
    · rw [if_neg hsf]
      exact ⟨by simp [h.1], by simp [h.2]⟩

/-- C9: at the end of every pass, `notificationsSent` equals `totalMatches`
(and equals the number of notification dispatch attempts): the counter is
incremented once per persisted match, after `sendMatchNotification` has
returned — and that function returns normally whether the SMS was delivered,
failed, or was skipped. -/
theorem notificationsSent_eq_totalMatches (env : Env) (pets : List Pet)
    (store : List MatchRecord) (nextId : ℕ) :
    (processMatches env pets store nextId).notificationsSent =
        (processMatches env pets store nextId).totalMatches ∧
      (processMatches env pets store nextId).smsLog.length =
        (processMatches env pets store nextId).totalMatches := by
  unfold processMatches
  refine foldl_preserve
    (fun st => st.notificationsSent = st.totalMatches ∧
      st.smsLog.length = st.totalMatches)
    (processPet env pets) ?_ (lostBatch pets)
    { store := store, nextId := nextId, totalMatches := 0,
      notificationsSent := 0, smsLog := [], reportLog := [] } ⟨rfl, rfl⟩
  intro st lp hst
  unfold processPet
  exact foldl_preserve _ (handleCandidate env lp)
    (fun a b ha => handleCandidate_counts env lp a b ha) _ st hst

/-- Two pass states that agree on everything except the logged SMS/report
outcomes: same store, same counters, same sequence of match ids dispatched
and report-attempted. -/
def SameCore (s1 s2 : PassState) : Prop :=
  s1.store = s2.store ∧ s1.nextId = s2.nextId ∧
    s1.totalMatches = s2.totalMatches ∧
    s1.notificationsSent = s2.notificationsSent ∧
    s1.smsLog.map Prod.fst = s2.smsLog.map Prod.fst ∧
    s1.reportLog.map Prod.fst = s2.reportLog.map Prod.fst

lemma foldl_rel {α β : Type _} (R : α → α → Prop) (f g : α → β → α)
    (hfg : ∀ a1 a2 b, R a1 a2 → R (f a1 b) (g a2 b)) :
    ∀ (l : List β) (a1 a2 : α), R a1 a2 → R (l.foldl f a1) (l.foldl g a2) := by
  intro l
  induction l with
  | nil => intro a1 a2 h; exact h
  | cons x xs ih => intro a1 a2 h; exact ih _ _ (hfg a1 a2 x h)

lemma handleCandidate_sameCore (env1 env2 : Env)
    (hsave : env1.saveFails = env2.saveFails) (lostPet : Pet)
    (s1 s2 : PassState) (m : MatchEntry) (h : SameCore s1 s2) :
    SameCore (handleCandidate env1 lostPet s1 m) (handleCandidate env2 lostPet s2 m) := by
  obtain ⟨hst, hnid, htm, hns, hsl, hrl⟩ := h
  unfold handleCandidate
  by_cases hex : matchExists s1.store lostPet.id m.foundPetId = true
  · have hex2 : matchExists s2.store lostPet.id m.foundPetId = true := by
      rw [← hst]; exact hex
    rw [if_pos hex, if_pos hex2]
    exact ⟨hst, hnid, htm, hns, hsl, hrl⟩
  · have hex2 : ¬ matchExists s2.store lostPet.id m.foundPetId = true := by
      rw [← hst]; exact hex
    rw [if_neg hex, if_neg hex2]
    unfold saveMatch
    by_cases hsf : env1.saveFails lostPet.id m.foundPetId = true
    · have hsf2 : env2.saveFails lostPet.id m.foundPetId = true := by
        rw [← hsave]; exact hsf
      rw [if_pos hsf, if_pos hsf2]
      exact ⟨hst, hnid, htm, hns, hsl, hrl⟩
    · have hsf2 : ¬ env2.saveFails lostPet.id m.foundPetId = true := by
        rw [← hsave]; exact hsf
      rw [if_neg hsf, if_neg hsf2]
      refine ⟨?_, ?_, ?_, ?_, ?_, ?_⟩ <;>
        simp [hst, hnid, htm, hns, hsl, hrl]

/-- C7: per-match failure isolation.  Whatever the SMS provider and the
report generator do — in particular if they fail for one match A — the pass
persists the same match records, reaches the same counters, and makes a
notification dispatch and a report attempt for the same sequence of matches
(so every other match B is persisted, dispatched and report-attempted
unchanged).  Only the logged outcomes can differ. -/
theorem failure_isolation (env1 env2 : Env) (pets : List Pet)
    (store : List MatchRecord) (nextId : ℕ)
    (hsave : env1.saveFails = env2.saveFails) :
    (processMatches env1 pets store nextId).store =
        (processMatches env2 pets store nextId).store ∧
      (processMatches env1 pets store nextId).nextId =
        (processMatches env2 pets store nextId).nextId ∧
      (processMatches env1 pets store nextId).totalMatches =
        (processMatches env2 pets store nextId).totalMatches ∧
      (processMatches env1 pets store nextId).notificationsSent =
        (processMatches env2 pets store nextId).notificationsSent ∧
      (processMatches env1 pets store nextId).smsLog.map Prod.fst =
        (processMatches env2 pets store nextId).smsLog.map Prod.fst ∧
      (processMatches env1 pets store nextId).reportLog.map Prod.fst =
        (processMatches env2 pets store nextId).reportLog.map Prod.fst := by
  have h : SameCore (processMatches env1 pets store nextId)
      (processMatches env2 pets store nextId) := by
    unfold processMatches
    refine foldl_rel SameCore (processPet env1 pets) (processPet env2 pets)
      ?_ (lostBatch pets) _ _ ⟨rfl, rfl, rfl, rfl, rfl, rfl⟩
    intro s1 s2 lp hs
    unfold processPet
    exact foldl_rel SameCore (handleCandidate env1 lp) (handleCandidate env2 lp)
      (fun a1 a2 b hab => handleCandidate_sameCore env1 env2 hsave lp a1 a2 b hab)
      _ s1 s2 hs
  exact h

/-- Environment in which every SMS send and every report call fails. -/
def envAllFail : Env :=
  { smsConfigured := true, smsSendFails := fun _ _ => true,
    reportFails := fun _ => true, reportSuccess := fun _ => false,
    saveFails := fun _ _ => false }

/-- Environment in which every SMS send and every report call succeeds. -/
def envAllOk : Env :=
  { smsConfigured := true, smsSendFails := fun _ _ => false,
    reportFails := fun _ => false, reportSuccess := fun _ => true,
    saveFails := fun _ _ => false }

/-- Witness for C7 at concrete inputs: an all-failing and an all-succeeding
dispatcher/report environment share their insert behaviour, and the pass over
a concrete two-pet table produces the same persisted matches, counters, and
dispatch/report attempts. -/
theorem failure_isolation_witness :
    envAllFail.saveFails = envAllOk.saveFails ∧
      (processMatches envAllFail [lostW, foundW] [] 0).store =
        (processMatches envAllOk [lostW, foundW] [] 0).store := by
  have h := failure_isolation envAllFail envAllOk [lostW, foundW] [] 0 rfl
  exact ⟨rfl, h.1⟩

/-- A candidate pair is inert when the gate will not insert it: either a
record for the exact ordered pair is already in the store, or the insert for
this pair fails in this environment. -/
def inert (env : Env) (store : List MatchRecord) (lostId foundId : ℕ) : Prop :=
  matchExists store lostId foundId = true ∨ env.saveFails lostId foundId = true

lemma matchExists_append (store t : List MatchRecord) (l f : ℕ)
    (h : matchExists store l f = true) : matchExists (store ++ t) l f = true := by
  unfold matchExists at h ⊢
  rw [List.any_append, h, Bool.true_or]

lemma inert_append (env : Env) (store t : List MatchRecord) (l f : ℕ)
    (h : inert env store l f) : inert env (store ++ t) l f := by
  rcases h with h | h
  · exact Or.inl (matchExists_append store t l f h)
  · exact Or.inr h

lemma handleCandidate_extend (env : Env) (lostPet : Pet) (st : PassState)
    (m : MatchEntry) :
    ∃ t, (handleCandidate env lostPet st m).store = st.store ++ t := by
  unfold handleCandidate
  by_cases hex : matchExists st.store lostPet.id m.foundPetId = true
  · rw [if_pos hex]; exact ⟨[], (List.append_nil _).symm⟩
  · rw [if_neg hex]
    unfold saveMatch
    by_cases hsf : env.saveFails lostPet.id m.foundPetId = true
    · rw [if_pos hsf]; exact ⟨[], (List.append_nil _).symm⟩
    · rw [if_neg hsf]
      exact ⟨_, rfl⟩

lemma foldl_extend {β : Type _} (f : PassState → β → PassState)
    (hf : ∀ st b, ∃ t, (f st b).store = st.store ++ t) :
    ∀ (l : List β) (st : PassState), ∃ t, ((l.foldl f st).store = st.store ++ t) := by
  intro l
  induction l with
  | nil => intro st; exact ⟨[], (List.append_nil _).symm⟩
  | cons x xs ih =>
    intro st
    obtain ⟨t1, ht1⟩ := hf st x
    obtain ⟨t2, ht2⟩ := ih (f st x)
    exact ⟨t1 ++ t2, by rw [List.foldl_cons, ht2, ht1, List.append_assoc]⟩

lemma processPet_extend (env : Env) (pets : List Pet) (st : PassState) (lp : Pet) :
    ∃ t, (processPet env pets st lp).store = st.store ++ t := by
  unfold processPet
  exact foldl_extend _ (fun st' b => handleCandidate_extend env lp st' b) _ st

lemma handleCandidate_inert_self (env : Env) (lostPet : Pet) (st : PassState)
    (m : MatchEntry) :
    inert env (handleCandidate env lostPet st m).store lostPet.id m.foundPetId := by
  unfold handleCandidate
  by_cases hex : matchExists st.store lostPet.id m.foundPetId = true
  · rw [if_pos hex]; exact Or.inl hex
  · rw [if_neg hex]
    unfold saveMatch
    by_cases hsf : env.saveFails lostPet.id m.foundPetId = true
    · rw [if_pos hsf]; exact Or.inr hsf
    · rw [if_neg hsf]
      left
      unfold matchExists
      rw [List.any_append]
      simp

lemma foldl_inert_all (env : Env) (lostPet : Pet) :
    ∀ (ms : List MatchEntry) (st : PassState), ∀ m ∈ ms,
      inert env ((ms.foldl (handleCandidate env lostPet) st).store)
        lostPet.id m.foundPetId := by
  intro ms
  induction ms with
  | nil => intro st m hm; exact absurd hm (List.not_mem_nil m)
  | cons x xs ih =>
    intro st m hm
    rw [List.foldl_cons]
    rcases List.mem_cons.1 hm with rfl | hm'
    · obtain ⟨t, ht⟩ := foldl_extend _
        (fun st' b => handleCandidate_extend env lostPet st' b) xs
        (handleCandidate env lostPet st m)
      rw [ht]
      exact inert_append env _ t _ _ (handleCandidate_inert_self env lostPet st m)
    · exact ih _ m hm'

lemma pass_inert_all (env : Env) (pets : List Pet) :
    ∀ (lps : List Pet) (st : PassState), ∀ lp ∈ lps,
      ∀ m ∈ findMatchesForLostPet lp pets,
        inert env ((lps.foldl (processPet env pets) st).store)
          lp.id m.foundPetId := by
  intro lps
  induction lps with
  | nil => intro st lp hlp; exact absurd hlp (List.not_mem_nil lp)
  | cons x xs ih =>
    intro st lp hlp m hm
    rw [List.foldl_cons]
    rcases List.mem_cons.1 hlp with rfl | hlp'
    · obtain ⟨t, ht⟩ := foldl_extend _
        (fun st' b => processPet_extend env pets st' b) xs (processPet env pets st lp)
      rw [ht]
      refine inert_append env _ t _ _ ?_
      unfold processPet
      exact foldl_inert_all env lp (findMatchesForLostPet lp pets) st m hm
    · exact ih _ lp hlp' m hm

lemma handleCandidate_skip (env : Env) (lostPet : Pet) (st : PassState)
    (m : MatchEntry) (h : inert env st.store lostPet.id m.foundPetId) :
    handleCandidate env lostPet st m = st := by
  unfold handleCandidate
  by_cases hex : matchExists st.store lostPet.id m.foundPetId = true
  · rw [if_pos hex]
  · rw [if_neg hex]
    rcases h with h | h
    · exact absurd h hex
    · unfold saveMatch
      rw [if_pos h]

lemma foldl_skip (env : Env) (lostPet : Pet) :
    ∀ (ms : List MatchEntry) (st : PassState),
      (∀ m ∈ ms, inert env st.store lostPet.id m.foundPetId) →
      ms.foldl (handleCandidate env lostPet) st = st := by
  intro ms
  induction ms with
  | nil => intro st _; rfl
  | cons x xs ih =>
    intro st h
    rw [List.foldl_cons, handleCandidate_skip env lostPet st x (h x (List.mem_cons_self x xs))]
    exact ih st (fun m hm => h m (List.mem_cons_of_mem x hm))

lemma pass_skip (env : Env) (pets : List Pet) :
    ∀ (lps : List Pet) (st : PassState),
      (∀ lp ∈ lps, ∀ m ∈ findMatchesForLostPet lp pets,
        inert env st.store lp.id m.foundPetId) →
      lps.foldl (processPet env pets) st = st := by
  intro lps
  induction lps with
  | nil => intro st _; rfl
  | cons x xs ih =>
    intro st h
    have hx : processPet env pets st x = st := by
      unfold processPet
      exact foldl_skip env x _ st (fun m hm => h x (List.mem_cons_self x xs) m hm)
    rw [List.foldl_cons, hx]
    exact ih st (fun lp hlp m hm => h lp (List.mem_cons_of_mem x hlp) m hm)

/-- C2: the pipeline is idempotent over an unchanged record table: after one
pass, every candidate pair of every batched subject is caught by the dedup
gate (or still rejected by the same failing insert), so a second pass started
from the first pass's match store inserts nothing — the store is unchanged
and the second pass counts zero new matches. -/
theorem processMatches_idempotent (env : Env) (pets : List Pet)
    (store : List MatchRecord) (nextId : ℕ) :
    (processMatches env pets (processMatches env pets store nextId).store
        (processMatches env pets store nextId).nextId).store =
      (processMatches env pets store nextId).store ∧
    (processMatches env pets (processMatches env pets store nextId).store
        (processMatches env pets store nextId).nextId).totalMatches = 0 := by
  have hinert : ∀ lp ∈ lostBatch pets, ∀ m ∈ findMatchesForLostPet lp pets,
      inert env (processMatches env pets store nextId).store lp.id m.foundPetId := by
    intro lp hlp m hm
    unfold processMatches
    exact pass_inert_all env pets (lostBatch pets) _ lp hlp m hm
  have hskip := pass_skip env pets (lostBatch pets)
    { store := (processMatches env pets store nextId).store,
      nextId := (processMatches env pets store nextId).nextId,
      totalMatches := 0, notificationsSent := 0, smsLog := [], reportLog := [] }
    (fun lp hlp m hm => hinert lp hlp m hm)
  have h1 := congrArg PassState.store hskip
  have h2 := congrArg PassState.totalMatches hskip
  exact ⟨h1, h2⟩

/-- Events observable by the scheduler installed in `startMatchEngine`: a
cron tick firing (at an arbitrary wall-clock moment, in particular while a
previous pass is still running), or a running pass completing. -/
inductive SchedEvent
  | tick
  | complete

/-- Scheduler state: how many `processMatches` passes are currently running. -/
structure SchedState where
  running : ℕ
deriving DecidableEq

/-- One step of the scheduler as coded in `startMatchEngine` (lines 286–304):
the cron callback is `async () => { await processMatches() }` with no
running-state flag or other guard anywhere in the function, so a tick
unconditionally starts one more pass; a completion ends one. -/
def schedStep (s : SchedState) : SchedEvent → SchedState
  | .tick => { running := s.running + 1 }
  | .complete => { running := s.running - 1 }

/-- The state right after `startMatchEngine` returns: the immediate
`processMatches()` call (line 296, not awaited) has started one pass. -/
def startState : SchedState := { running := 1 }

/-- A trace of scheduler events applied from a state. -/
def runEvents (s : SchedState) (es : List SchedEvent) : SchedState :=
  es.foldl schedStep s

/-- C1 fails on the code: `startMatchEngine` installs no skip-not-queue
guard, so when the first cron tick fires while the initial pass is still
running, a second concurrent pass starts and two passes are in the Running
state simultaneously; in every state a tick increments the number of running
passes rather than being skipped. -/
theorem overlapping_tick_starts_second_pass :
    (runEvents startState [SchedEvent.tick]).running = 2 ∧
    (∀ s : SchedState, (schedStep s SchedEvent.tick).running = s.running + 1) :=
  ⟨rfl, fun _ => rfl⟩

end MatchEngine
